import Mathlib

/-!
Shallow embedding of the Baruk package-delivery app (src/src/App.jsx).

The file models the mock/state-engine variant of the source (lines 74-980);
the Supabase variant (lines 981-2275) has handler bodies that are
field-for-field identical for every operation the claims mention, so the
theorems below settle the claims for both.

Modelling conventions:
* JavaScript numbers are modelled as exact rationals (`ℚ`); `Math.round x`
  is `round x = ⌊x + 1/2⌋`, which agrees with JS `Math.round` on all reals.
* `Math.random()` is modelled by an explicit rational draw `r` with
  `0 ≤ r < 1` passed to `generateOTP`.
* The `createdAt`/`updatedAt` timestamps (real time) are not modelled; the
  Supabase `updatePkg` (source lines 2145-2155) writes only the five
  domain fields `status`, `rider_collection_id`, `rider_delivery_id`,
  `otp_warehouse_verified`, `otp_delivery_verified`.
* `RIDERS.find(r => r.id === riderId)?.name` lookups are modelled against
  an explicit `riders : List Rider` argument standing for the module-level
  `RIDERS` constant.
* In `onVerifyOTP` the source dereferences `packages.find(...)` without a
  null check: an unknown package id throws a TypeError before the ledger
  append, and the preceding `updatePkg` is a no-op on an unknown id, so
  that case is modelled as leaving the state unchanged.
-/

namespace Baruk

/-- The `status` column check constraint / the string statuses used in the
source. -/
inductive Status
  | searching_rider
  | picked_up
  | at_warehouse
  | out_for_delivery
  | delivered
  | cancelled
deriving DecidableEq

/-- The `type` argument of `onVerifyOTP` ("warehouse" / "delivery"). -/
inductive OTPKind
  | warehouse
  | delivery
deriving DecidableEq

/-- A package record, as built by `onCreatePackage` (source lines 892-908).
Timestamps are not modelled. -/
structure Package where
  id : String
  trackingCode : String
  customerId : String
  customerName : String
  riderCollectionId : Option String
  riderDeliveryId : Option String
  pickupAddress : String
  deliveryAddress : String
  deliveryZone : String
  description : String
  size : String
  declaredValue : ℚ
  base : ℤ
  protectionFee : ℤ
  total : ℤ
  isHighValue : Bool
  status : Status
  otpWarehouse : Option String
  otpDelivery : Option String
  otpWarehouseVerified : Bool
  otpDeliveryVerified : Bool
deriving DecidableEq

/-- A transit-log (chain-of-custody) entry, as built by `addLog`
(source lines 882-886).  `actorId`, `actorName`, `location` can be absent
because the source passes values such as `rider?.name` and
`packages.find(...)?.pickupAddress`. -/
structure LogEntry where
  packageId : String
  actorId : Option String
  actorRole : String
  actorName : Option String
  event : String
  location : Option String
  notes : Option String
deriving DecidableEq

/-- An entry of the module-level `RIDERS` constant. -/
structure Rider where
  id : String
  name : String
  zone : String
deriving DecidableEq

/-- The `App` component state: `packages` and `logs` `useState` values. -/
structure AppState where
  packages : List Package
  logs : List LogEntry
deriving DecidableEq

/-- The booking form handed to `onCreatePackage`.  `declaredValue` is the
already-parsed `parseFloat(form.declaredValue) || 0`. -/
structure CreateForm where
  pickupAddress : String
  deliveryAddress : String
  deliveryZone : String
  description : String
  size : String
  declaredValue : ℚ

/-- Result record of `calcFees`. -/
structure Fees where
  base : ℤ
  protectionFee : ℤ
  total : ℤ
  isHighValue : Bool
deriving DecidableEq

/-- Source line 79:
`Math.floor(1000 + Math.random() * 9000).toString()`,
with the `Math.random()` draw `r` made explicit. -/
def generateOTP (r : ℚ) : String :=
  (⌊(1000 : ℚ) + r * 9000⌋).toNat.repr

/-- Source lines 82-86. -/
def calcFees (declaredValue : ℚ) : Fees :=
  let base : ℤ := 200
  let protectionFee : ℤ :=
    if declaredValue > 5000 then round (declaredValue * (0.015 : ℚ)) else 0
  { base := base
    protectionFee := protectionFee
    total := base + protectionFee
    isHighValue := declaredValue > 10000 }

/-- Source lines 882-886: append one log entry (`setLogs(l => [...l, log])`). -/
def addLog (s : AppState) (packageId : String) (actorId : Option String)
    (actorRole : String) (actorName : Option String) (event : String)
    (location : Option String) (notes : Option String) : AppState :=
  { s with
    logs := s.logs ++
      [{ packageId := packageId, actorId := actorId, actorRole := actorRole,
         actorName := actorName, event := event, location := location,
         notes := notes }] }

/-- Source lines 888-890: apply a field update to every package whose id
matches (`ps.map(p => p.id === id ? { ...p, ...updates } : p)`).  Each call
site's spread `updates` object becomes the concrete `upd` function. -/
def updatePkg (s : AppState) (id : String) (upd : Package → Package) : AppState :=
  { s with packages := s.packages.map (fun p => if p.id == id then upd p else p) }

/-- Model of `packages.find(p => p.id === pkgId)`. -/
def pkgAt (s : AppState) (pkgId : String) : Option Package :=
  s.packages.find? (fun p => p.id == pkgId)

/-- Source lines 892-908 (`onCreatePackage`), with the two `generateOTP`
random draws `r1`, `r2`, the generated id and tracking code, and the
logged-in customer made explicit.  Returns the new state and the created
package (the source returns `pkg`). -/
def onCreatePackage (s : AppState) (userId userName : String) (form : CreateForm)
    (newId trackingCode : String) (r1 r2 : ℚ) : AppState × Package :=
  let fees := calcFees form.declaredValue
  let pkg : Package :=
    { id := newId, trackingCode := trackingCode,
      customerId := userId, customerName := userName,
      riderCollectionId := none, riderDeliveryId := none,
      pickupAddress := form.pickupAddress, deliveryAddress := form.deliveryAddress,
      deliveryZone := form.deliveryZone, description := form.description,
      size := form.size, declaredValue := form.declaredValue,
      base := fees.base, protectionFee := fees.protectionFee, total := fees.total,
      isHighValue := fees.isHighValue, status := .searching_rider,
      otpWarehouse := if fees.isHighValue then some (generateOTP r1) else none,
      otpDelivery := if fees.isHighValue then some (generateOTP r2) else none,
      otpWarehouseVerified := false, otpDeliveryVerified := false }
  let s1 : AppState := { s with packages := pkg :: s.packages }
  (addLog s1 pkg.id (some userId) "customer" (some userName) "ORDER_PLACED"
    (some pkg.pickupAddress)
    (some ("Booking confirmed — KES " ++ toString fees.total)), pkg)

/-- Source lines 910-914: no guard — unconditionally binds the collection
rider and moves the status to `picked_up`. -/
def onAcceptCollection (riders : List Rider) (s : AppState)
    (pkgId riderId : String) : AppState :=
  let rider := riders.find? (fun r => r.id == riderId)
  let s1 := updatePkg s pkgId
    (fun p => { p with riderCollectionId := some riderId, status := .picked_up })
  addLog s1 pkgId (some riderId) "rider" (rider.map (·.name))
    "COLLECTED_FROM_CUSTOMER" ((pkgAt s pkgId).map (·.pickupAddress))
    (some "Package collected")

/-- Source lines 916-920: no guard — unconditionally sets `at_warehouse`. -/
def onMarkAtWarehouse (riders : List Rider) (s : AppState)
    (pkgId riderId : String) : AppState :=
  let rider := riders.find? (fun r => r.id == riderId)
  let s1 := updatePkg s pkgId (fun p => { p with status := .at_warehouse })
  addLog s1 pkgId (some riderId) "rider" (rider.map (·.name))
    "ARRIVED_AT_WAREHOUSE" (some "Baruk Central, CBD") none

/-- Source lines 922-927: binds the delivery rider, sets
`out_for_delivery`, and appends the admin-side `DISPATCHED_TO_RIDER`
entry followed by the rider-side `OUT_FOR_DELIVERY` entry. -/
def onDispatch (riders : List Rider) (s : AppState)
    (pkgId riderId : String) : AppState :=
  let rider := riders.find? (fun r => r.id == riderId)
  let s1 := updatePkg s pkgId
    (fun p => { p with riderDeliveryId := some riderId, status := .out_for_delivery })
  let s2 := addLog s1 pkgId (some "admin-01") "admin" (some "Admin Hub")
    "DISPATCHED_TO_RIDER" (some "Baruk Central, CBD")
    (some ("Assigned to " ++ ((rider.map (·.name)).getD "undefined")))
  addLog s2 pkgId (some riderId) "rider" (rider.map (·.name))
    "OUT_FOR_DELIVERY" (some "Baruk Central, CBD") none

/-- Source lines 929-933: binds the delivery rider without a status change. -/
def onAcceptDelivery (riders : List Rider) (s : AppState)
    (pkgId riderId : String) : AppState :=
  let rider := riders.find? (fun r => r.id == riderId)
  let s1 := updatePkg s pkgId (fun p => { p with riderDeliveryId := some riderId })
  addLog s1 pkgId (some riderId) "rider" (rider.map (·.name))
    "ACCEPTED_DELIVERY_JOB" (some "Baruk Central, CBD") none

/-- Source lines 935-944: takes a package id and a kind, no submitted code;
unconditionally flips the corresponding verified flag and appends the
corresponding ledger entry.  (An unknown package id throws in the source
before the append; that case leaves the state unchanged here.) -/
def onVerifyOTP (riders : List Rider) (s : AppState) (pkgId : String)
    (type : OTPKind) : AppState :=
  match pkgAt s pkgId with
  | none => s
  | some pkg =>
    match type with
    | .warehouse =>
      let s1 := updatePkg s pkgId (fun p => { p with otpWarehouseVerified := true })
      addLog s1 pkgId pkg.riderCollectionId "rider"
        (pkg.riderCollectionId.bind
          (fun rid => (riders.find? (fun r => r.id == rid)).map (·.name)))
        "OTP_WAREHOUSE_VERIFIED" (some "Baruk Central, CBD")
        (some "High-value handoff confirmed")
    | .delivery =>
      let s1 := updatePkg s pkgId (fun p => { p with otpDeliveryVerified := true })
      addLog s1 pkgId pkg.riderDeliveryId "rider"
        (pkg.riderDeliveryId.bind
          (fun rid => (riders.find? (fun r => r.id == rid)).map (·.name)))
        "OTP_DELIVERY_VERIFIED" (some pkg.deliveryAddress)
        (some "High-value delivery OTP confirmed")

/-- Source lines 946-951: no guard — unconditionally sets `delivered`. -/
def onMarkDelivered (riders : List Rider) (s : AppState)
    (pkgId riderId : String) : AppState :=
  let rider := riders.find? (fun r => r.id == riderId)
  let pkg := pkgAt s pkgId
  let s1 := updatePkg s pkgId (fun p => { p with status := .delivered })
  addLog s1 pkgId (some riderId) "rider" (rider.map (·.name))
    "DELIVERED" (pkg.map (·.deliveryAddress))
    (some "Package delivered successfully")

/-! ### Rider / admin UI layer

The engine operations above perform no checks at all; every guard of the
spec's transition table lives in the UI as a button-render condition
(RiderApp.PkgCard, source lines 402-466; AdminDashboard hub table, source
lines 525-631) or as the string comparison of `handleOTPVerify`
(source lines 391-400). -/

/-- Source lines 391-400: the rider UI compares the entered code with the
stored one (`entered === correct`, exact string equality; `correct` is
`null` for a non-high-value package) and only invokes `onVerifyOTP` on a
match.  The returned `Bool` is the `otpError` flag the UI records for this
package/kind. -/
def handleOTPVerify (riders : List Rider) (s : AppState) (pkg : Package)
    (type : OTPKind) (entered : String) : AppState × Bool :=
  if (match type with
      | .warehouse => pkg.otpWarehouse
      | .delivery => pkg.otpDelivery) = some entered
  then (onVerifyOTP riders s pkg.id type, false)
  else (s, true)

/-- Render condition of the "Accept Collection" button (source line 429). -/
def acceptCollectionShown (pkg : Package) (rider : Rider) : Bool :=
  pkg.status == .searching_rider && !(pkg.riderCollectionId == some rider.id)

/-- Render condition of the "Mark: Arrived at Warehouse" button
(source line 432). -/
def markAtWarehouseShown (pkg : Package) (rider : Rider) : Bool :=
  pkg.status == .searching_rider && pkg.riderCollectionId == some rider.id

/-- Render condition of the "Accept Delivery" button (source line 446). -/
def acceptDeliveryShown (pkg : Package) (rider : Rider) : Bool :=
  pkg.status == .at_warehouse && !(pkg.riderDeliveryId == some rider.id)
    && pkg.deliveryZone == rider.zone

/-- Condition `needsWarehouseOTP` (source line 405). -/
def needsWarehouseOTP (pkg : Package) (rider : Rider) : Bool :=
  pkg.isHighValue && pkg.riderCollectionId == some rider.id
    && pkg.status == .at_warehouse && !pkg.otpWarehouseVerified

/-- Condition `needsDeliveryOTP` (source line 406). -/
def needsDeliveryOTP (pkg : Package) (rider : Rider) : Bool :=
  pkg.isHighValue && pkg.riderDeliveryId == some rider.id
    && pkg.status == .out_for_delivery && !pkg.otpDeliveryVerified

/-- Render condition of the "Mark as Delivered" button (source line 460). -/
def markDeliveredShown (pkg : Package) (rider : Rider) : Bool :=
  pkg.status == .out_for_delivery && pkg.riderDeliveryId == some rider.id
    && (!pkg.isHighValue || pkg.otpDeliveryVerified)

/-- One UI-level action on a package: a button the interface can offer,
keyed by the acting rider (or, for dispatch, the admin's chosen rider). -/
inductive UIAction
  | acceptCollection (rider : Rider)
  | markAtWarehouse (rider : Rider)
  | acceptDelivery (rider : Rider)
  | verifyOTP (rider : Rider) (type : OTPKind) (entered : String)
  | adminDispatch (riderId : String)
  | markDelivered (rider : Rider)

/-- Apply a UI action to the package `pkgId`: the engine operation fires
exactly when the corresponding render condition holds for the package as
currently found (the admin dispatch table only lists `at_warehouse`
packages, source line 525). -/
def applyUI (riders : List Rider) (s : AppState) (pkgId : String)
    (a : UIAction) : AppState :=
  match pkgAt s pkgId with
  | none => s
  | some pkg =>
    match a with
    | .acceptCollection r =>
      if acceptCollectionShown pkg r then onAcceptCollection riders s pkgId r.id else s
    | .markAtWarehouse r =>
      if markAtWarehouseShown pkg r then onMarkAtWarehouse riders s pkgId r.id else s
    | .acceptDelivery r =>
      if acceptDeliveryShown pkg r then onAcceptDelivery riders s pkgId r.id else s
    | .verifyOTP r t entered =>
      if (match t with
          | .warehouse => needsWarehouseOTP pkg r
          | .delivery => needsDeliveryOTP pkg r)
      then (handleOTPVerify riders s pkg t entered).1 else s
    | .adminDispatch rid =>
      if pkg.status == .at_warehouse then onDispatch riders s pkgId rid else s
    | .markDelivered r =>
      if markDeliveredShown pkg r then onMarkDelivered riders s pkgId r.id else s

/-- A sequence of UI actions, each aimed at some package id. -/
def runUI (riders : List Rider) (s : AppState) :
    List (String × UIAction) → AppState
  | [] => s
  | (pkgId, a) :: rest => runUI riders (applyUI riders s pkgId a) rest

/-- One raw engine operation (the six state-machine calls of the spec's
interface, without any UI gating), keyed by its rider argument. -/
inductive EngineOp
  | acceptCollection (riderId : String)
  | markAtWarehouse (riderId : String)
  | dispatch (riderId : String)
  | acceptDelivery (riderId : String)
  | verifyOTP (type : OTPKind)
  | markDelivered (riderId : String)

/-- Dispatch of a raw engine operation. -/
def applyEngine (riders : List Rider) (s : AppState) (pkgId : String) :
    EngineOp → AppState
  | .acceptCollection rid => onAcceptCollection riders s pkgId rid
  | .markAtWarehouse rid => onMarkAtWarehouse riders s pkgId rid
  | .dispatch rid => onDispatch riders s pkgId rid
  | .acceptDelivery rid => onAcceptDelivery riders s pkgId rid
  | .verifyOTP t => onVerifyOTP riders s pkgId t
  | .markDelivered rid => onMarkDelivered riders s pkgId rid

/-- A sequence of raw engine operations. -/
def runEngine (riders : List Rider) (s : AppState) :
    List (String × EngineOp) → AppState
  | [] => s
  | (pkgId, op) :: rest => runEngine riders (applyEngine riders s pkgId op) rest

/-- Position of a status in the forward order
`searching_rider < picked_up < at_warehouse < out_for_delivery < delivered`
used by claim C3; `cancelled` is the exceptional terminal. -/
def statusRank : Status → Nat
  | .searching_rider => 0
  | .picked_up => 1
  | .at_warehouse => 2
  | .out_for_delivery => 3
  | .delivered => 4
  | .cancelled => 5

/-- Status `b` is reachable from `a` without moving backward: the rank does not
drop, except possibly into the terminal `cancelled` state. -/
def statusForward (a b : Status) : Prop :=
  statusRank a ≤ statusRank b ∨ b = .cancelled

/-- Relation `statusForward` lifted to the result of a `pkgAt` lookup: a package
that exists keeps existing and never moves backward; no package appears
from nowhere. -/
def statusForwardO : Option Status → Option Status → Prop
  | some a, some b => statusForward a b
  | none, none => True
  | _, _ => False

/-! ### Helper lemmas about the state representation -/

/-- Searching commutes with a `map` whose function does not change the value
of the search predicate. -/
lemma find?_map_congr {α : Type} (f : α → α) (q : α → Bool)
    (h : ∀ a, q (f a) = q a) :
    ∀ l : List α, (l.map f).find? q = (l.find? q).map f := by
  intro l
  induction l with
  | nil => rfl
  | cons a t ih =>
    simp only [List.map_cons]
    cases hq : q a with
    | true =>
      rw [List.find?_cons_of_pos _ (by rw [h a]; exact hq),
        List.find?_cons_of_pos _ hq]
      rfl
    | false =>
      rw [List.find?_cons_of_neg _ (by rw [h a, hq]; exact Bool.false_ne_true),
        List.find?_cons_of_neg _ (hq ▸ Bool.false_ne_true), ih]

/-- Appending a log entry does not touch the packages. -/
lemma pkgAt_addLog (s : AppState) (a : String) (b : Option String) (c : String)
    (d : Option String) (e : String) (f g : Option String) (i : String) :
    pkgAt (addLog s a b c d e f g) i = pkgAt s i := rfl

/-- Updating a package does not touch the logs. -/
lemma logs_updatePkg (s : AppState) (id : String) (upd : Package → Package) :
    (updatePkg s id upd).logs = s.logs := rfl

/-- An `addLog` call appends exactly its entry. -/
lemma logs_addLog (s : AppState) (a : String) (b : Option String) (c : String)
    (d : Option String) (e : String) (f g : Option String) :
    (addLog s a b c d e f g).logs = s.logs ++
      [{ packageId := a, actorId := b, actorRole := c, actorName := d,
         event := e, location := f, notes := g }] := rfl

/-- Looking a package up after `updatePkg`: the found package (if any) is
the old one, updated exactly when its id matches the updated id. -/
lemma pkgAt_updatePkg (s : AppState) (id : String) (upd : Package → Package)
    (hid : ∀ p, (upd p).id = p.id) (i : String) :
    pkgAt (updatePkg s id upd) i =
      (pkgAt s i).map (fun p => if p.id == id then upd p else p) := by
  unfold pkgAt updatePkg
  exact find?_map_congr _ _
    (fun p => by cases hp : (p.id == id) <;> simp [hp, hid p]) _

/-- A found package's id matches the looked-up id. -/
lemma pkgAt_id (s : AppState) (i : String) (p : Package)
    (h : pkgAt s i = some p) : p.id = i := by
  unfold pkgAt at h
  have h2 := List.find?_some h
  exact eq_of_beq h2

/-- The field update of `onAcceptCollection`. -/
def acceptCollectionUpd (riderId : String) (p : Package) : Package :=
  { p with riderCollectionId := some riderId, status := .picked_up }

/-- The field update of `onMarkAtWarehouse`. -/
def markAtWarehouseUpd (p : Package) : Package :=
  { p with status := .at_warehouse }

/-- The field update of `onDispatch`. -/
def dispatchUpd (riderId : String) (p : Package) : Package :=
  { p with riderDeliveryId := some riderId, status := .out_for_delivery }

/-- The field update of `onAcceptDelivery`. -/
def acceptDeliveryUpd (riderId : String) (p : Package) : Package :=
  { p with riderDeliveryId := some riderId }

/-- The field update of `onVerifyOTP` for each kind. -/
def otpUpd : OTPKind → Package → Package
  | .warehouse, p => { p with otpWarehouseVerified := true }
  | .delivery, p => { p with otpDeliveryVerified := true }

/-- The field update of `onMarkDelivered`. -/
def markDeliveredUpd (p : Package) : Package :=
  { p with status := .delivered }

lemma pkgAt_onAcceptCollection (riders : List Rider) (s : AppState)
    (pkgId rid i : String) :
    pkgAt (onAcceptCollection riders s pkgId rid) i =
      (pkgAt s i).map (fun p => if p.id == pkgId then acceptCollectionUpd rid p else p) := by
  unfold onAcceptCollection
  rw [pkgAt_addLog, pkgAt_updatePkg]
  · rfl
  · intro p; rfl

lemma pkgAt_onMarkAtWarehouse (riders : List Rider) (s : AppState)
    (pkgId rid i : String) :
    pkgAt (onMarkAtWarehouse riders s pkgId rid) i =
      (pkgAt s i).map (fun p => if p.id == pkgId then markAtWarehouseUpd p else p) := by
  unfold onMarkAtWarehouse
  rw [pkgAt_addLog, pkgAt_updatePkg]
  · rfl
  · intro p; rfl

lemma pkgAt_onDispatch (riders : List Rider) (s : AppState)
    (pkgId rid i : String) :
    pkgAt (onDispatch riders s pkgId rid) i =
      (pkgAt s i).map (fun p => if p.id == pkgId then dispatchUpd rid p else p) := by
  unfold onDispatch
  rw [pkgAt_addLog, pkgAt_addLog, pkgAt_updatePkg]
  · rfl
  · intro p; rfl

lemma pkgAt_onAcceptDelivery (riders : List Rider) (s : AppState)
    (pkgId rid i : String) :
    pkgAt (onAcceptDelivery riders s pkgId rid) i =
      (pkgAt s i).map (fun p => if p.id == pkgId then acceptDeliveryUpd rid p else p) := by
  unfold onAcceptDelivery
  rw [pkgAt_addLog, pkgAt_updatePkg]
  · rfl
  · intro p; rfl

lemma pkgAt_onVerifyOTP (riders : List Rider) (s : AppState)
    (pkgId i : String) (k : OTPKind) (pkg : Package)
    (h : pkgAt s pkgId = some pkg) :
    pkgAt (onVerifyOTP riders s pkgId k) i =
      (pkgAt s i).map (fun p => if p.id == pkgId then otpUpd k p else p) := by
  unfold onVerifyOTP
  rw [h]
  cases k with
  | warehouse =>
    rw [pkgAt_addLog, pkgAt_updatePkg]
    · rfl
    · intro p; rfl
  | delivery =>
    rw [pkgAt_addLog, pkgAt_updatePkg]
    · rfl
    · intro p; rfl

lemma onVerifyOTP_none (riders : List Rider) (s : AppState)
    (pkgId : String) (k : OTPKind) (h : pkgAt s pkgId = none) :
    onVerifyOTP riders s pkgId k = s := by
  unfold onVerifyOTP
  rw [h]

lemma pkgAt_onMarkDelivered (riders : List Rider) (s : AppState)
    (pkgId rid i : String) :
    pkgAt (onMarkDelivered riders s pkgId rid) i =
      (pkgAt s i).map (fun p => if p.id == pkgId then markDeliveredUpd p else p) := by
  unfold onMarkDelivered
  rw [pkgAt_addLog, pkgAt_updatePkg]
  · rfl
  · intro p; rfl

lemma logs_onAcceptCollection (riders : List Rider) (s : AppState)
    (pkgId rid : String) :
    (onAcceptCollection riders s pkgId rid).logs = s.logs ++
      [{ packageId := pkgId, actorId := some rid, actorRole := "rider",
         actorName := (riders.find? (fun r => r.id == rid)).map (·.name),
         event := "COLLECTED_FROM_CUSTOMER",
         location := (pkgAt s pkgId).map (·.pickupAddress),
         notes := some "Package collected" }] := rfl

lemma logs_onMarkAtWarehouse (riders : List Rider) (s : AppState)
    (pkgId rid : String) :
    (onMarkAtWarehouse riders s pkgId rid).logs = s.logs ++
      [{ packageId := pkgId, actorId := some rid, actorRole := "rider",
         actorName := (riders.find? (fun r => r.id == rid)).map (·.name),
         event := "ARRIVED_AT_WAREHOUSE",
         location := some "Baruk Central, CBD", notes := none }] := rfl

lemma logs_onDispatch (riders : List Rider) (s : AppState)
    (pkgId rid : String) :
    (onDispatch riders s pkgId rid).logs = s.logs ++
      [{ packageId := pkgId, actorId := some "admin-01", actorRole := "admin",
         actorName := some "Admin Hub", event := "DISPATCHED_TO_RIDER",
         location := some "Baruk Central, CBD",
         notes := some ("Assigned to " ++
           (((riders.find? (fun r => r.id == rid)).map (·.name)).getD "undefined")) },
       { packageId := pkgId, actorId := some rid, actorRole := "rider",
         actorName := (riders.find? (fun r => r.id == rid)).map (·.name),
         event := "OUT_FOR_DELIVERY",
         location := some "Baruk Central, CBD", notes := none }] := by
  unfold onDispatch
  rw [logs_addLog, logs_addLog, logs_updatePkg, List.append_assoc]
  rfl

lemma logs_onAcceptDelivery (riders : List Rider) (s : AppState)
    (pkgId rid : String) :
    (onAcceptDelivery riders s pkgId rid).logs = s.logs ++
      [{ packageId := pkgId, actorId := some rid, actorRole := "rider",
         actorName := (riders.find? (fun r => r.id == rid)).map (·.name),
         event := "ACCEPTED_DELIVERY_JOB",
         location := some "Baruk Central, CBD", notes := none }] := rfl

lemma logs_onVerifyOTP_warehouse (riders : List Rider) (s : AppState)
    (pkgId : String) (pkg : Package) (h : pkgAt s pkgId = some pkg) :
    (onVerifyOTP riders s pkgId .warehouse).logs = s.logs ++
      [{ packageId := pkgId, actorId := pkg.riderCollectionId,
         actorRole := "rider",
         actorName := pkg.riderCollectionId.bind
           (fun rid => (riders.find? (fun r => r.id == rid)).map (·.name)),
         event := "OTP_WAREHOUSE_VERIFIED",
         location := some "Baruk Central, CBD",
         notes := some "High-value handoff confirmed" }] := by
  unfold onVerifyOTP
  rw [h]
  rfl

lemma logs_onVerifyOTP_delivery (riders : List Rider) (s : AppState)
    (pkgId : String) (pkg : Package) (h : pkgAt s pkgId = some pkg) :
    (onVerifyOTP riders s pkgId .delivery).logs = s.logs ++
      [{ packageId := pkgId, actorId := pkg.riderDeliveryId,
         actorRole := "rider",
         actorName := pkg.riderDeliveryId.bind
           (fun rid => (riders.find? (fun r => r.id == rid)).map (·.name)),
         event := "OTP_DELIVERY_VERIFIED",
         location := some pkg.deliveryAddress,
         notes := some "High-value delivery OTP confirmed" }] := by
  unfold onVerifyOTP
  rw [h]
  rfl

lemma logs_onMarkDelivered (riders : List Rider) (s : AppState)
    (pkgId rid : String) :
    (onMarkDelivered riders s pkgId rid).logs = s.logs ++
      [{ packageId := pkgId, actorId := some rid, actorRole := "rider",
         actorName := (riders.find? (fun r => r.id == rid)).map (·.name),
         event := "DELIVERED",
         location := (pkgAt s pkgId).map (·.deliveryAddress),
         notes := some "Package delivered successfully" }] := rfl

/-! ### Status-order machinery -/

lemma statusForward_refl (a : Status) : statusForward a a := Or.inl le_rfl

lemma statusForward_trans {a b c : Status} (h1 : statusForward a b)
    (h2 : statusForward b c) : statusForward a c := by
  rcases h2 with h2 | rfl
  · rcases h1 with h1 | rfl
    · exact Or.inl (h1.trans h2)
    · cases c <;> first | exact Or.inr rfl | exact absurd h2 (by decide)
  · exact Or.inr rfl

lemma statusForwardO_refl : ∀ o : Option Status, statusForwardO o o
  | none => trivial
  | some a => statusForward_refl a

lemma statusForwardO_trans {x y z : Option Status} (h1 : statusForwardO x y)
    (h2 : statusForwardO y z) : statusForwardO x z := by
  cases x <;> cases y <;> cases z <;>
    simp only [statusForwardO] at h1 h2 ⊢ <;>
    first
      | trivial
      | exact statusForward_trans h1 h2

/-- The status of the package found at id `i`. -/
def statusAt (s : AppState) (i : String) : Option Status :=
  (pkgAt s i).map (·.status)

/-- Generic forward step: the operation characterized by `hchar` moves the
targeted package to the fixed status `target`, which is forward from the
package the guard was evaluated on. -/
lemma statusForwardO_of_char (s s' : AppState) (pkgId i : String)
    (pkg : Package) (upd : Package → Package) (target : Status)
    (hfind : pkgAt s pkgId = some pkg)
    (hchar : pkgAt s' i =
      (pkgAt s i).map (fun p => if p.id == pkgId then upd p else p))
    (htarget : ∀ q, (upd q).status = target)
    (hok : statusForward pkg.status target) :
    statusForwardO (statusAt s i) (statusAt s' i) := by
  unfold statusAt
  rw [hchar]
  cases hip : pkgAt s i with
  | none => trivial
  | some p =>
    cases hpq : (p.id == pkgId) with
    | false =>
      simp only [Option.map_some', hpq, Bool.false_eq_true, if_false]
      exact statusForward_refl _
    | true =>
      have hpi : p.id = i := pkgAt_id s i p hip
      have hiq : i = pkgId := hpi ▸ eq_of_beq hpq
      subst hiq
      rw [hip] at hfind
      have hppkg : p = pkg := Option.some.inj hfind
      subst hppkg
      simp only [Option.map_some', hpq, if_true, htarget]
      exact hok

/-- Generic neutral step: an operation whose field update does not change
the status never moves any package's status at all. -/
lemma statusForwardO_of_char_preserve (s s' : AppState) (pkgId i : String)
    (upd : Package → Package)
    (hchar : pkgAt s' i =
      (pkgAt s i).map (fun p => if p.id == pkgId then upd p else p))
    (hpres : ∀ q, (upd q).status = q.status) :
    statusForwardO (statusAt s i) (statusAt s' i) := by
  unfold statusAt
  rw [hchar]
  cases hip : pkgAt s i with
  | none => trivial
  | some p =>
    cases hpq : (p.id == pkgId) with
    | false =>
      simp only [Option.map_some', hpq, Bool.false_eq_true, if_false]
      exact statusForward_refl _
    | true =>
      simp only [Option.map_some', hpq, if_true, hpres]
      exact statusForward_refl _

lemma acceptCollectionShown_status {pkg : Package} {r : Rider}
    (h : acceptCollectionShown pkg r = true) : pkg.status = .searching_rider := by
  unfold acceptCollectionShown at h
  exact eq_of_beq ((Bool.and_eq_true _ _).mp h).1

lemma markAtWarehouseShown_status {pkg : Package} {r : Rider}
    (h : markAtWarehouseShown pkg r = true) : pkg.status = .searching_rider := by
  unfold markAtWarehouseShown at h
  exact eq_of_beq ((Bool.and_eq_true _ _).mp h).1

lemma markDeliveredShown_status {pkg : Package} {r : Rider}
    (h : markDeliveredShown pkg r = true) : pkg.status = .out_for_delivery := by
  unfold markDeliveredShown at h
  exact eq_of_beq ((Bool.and_eq_true _ _).mp ((Bool.and_eq_true _ _).mp h).1).1

/-- Every single UI-gated action moves every package's status forward
(or leaves it alone). -/
lemma statusForwardO_applyUI (riders : List Rider) (s : AppState)
    (pkgId : String) (a : UIAction) (i : String) :
    statusForwardO (statusAt s i) (statusAt (applyUI riders s pkgId a) i) := by
  unfold applyUI
  cases hfind : pkgAt s pkgId with
  | none => exact statusForwardO_refl _
  | some pkg =>
    cases a with
    | acceptCollection r =>
      dsimp only
      cases hg : acceptCollectionShown pkg r with
      | false => rw [if_neg Bool.false_ne_true]; exact statusForwardO_refl _
      | true =>
        rw [if_pos rfl]
        refine statusForwardO_of_char s _ pkgId i pkg (acceptCollectionUpd r.id)
          .picked_up hfind (pkgAt_onAcceptCollection riders s pkgId r.id i)
          (fun q => rfl) ?_
        rw [acceptCollectionShown_status hg]
        exact Or.inl (by decide)
    | markAtWarehouse r =>
      dsimp only
      cases hg : markAtWarehouseShown pkg r with
      | false => rw [if_neg Bool.false_ne_true]; exact statusForwardO_refl _
      | true =>
        rw [if_pos rfl]
        refine statusForwardO_of_char s _ pkgId i pkg markAtWarehouseUpd
          .at_warehouse hfind (pkgAt_onMarkAtWarehouse riders s pkgId r.id i)
          (fun q => rfl) ?_
        rw [markAtWarehouseShown_status hg]
        exact Or.inl (by decide)
    | acceptDelivery r =>
      dsimp only
      cases hg : acceptDeliveryShown pkg r with
      | false => rw [if_neg Bool.false_ne_true]; exact statusForwardO_refl _
      | true =>
        rw [if_pos rfl]
        exact statusForwardO_of_char_preserve s _ pkgId i (acceptDeliveryUpd r.id)
          (pkgAt_onAcceptDelivery riders s pkgId r.id i) (fun q => rfl)
    | verifyOTP r t entered =>
      dsimp only
      have hpid : pkg.id = pkgId := pkgAt_id s pkgId pkg hfind
      cases t with
      | warehouse =>
        cases hg : needsWarehouseOTP pkg r with
        | false => rw [if_neg Bool.false_ne_true]; exact statusForwardO_refl _
        | true =>
          rw [if_pos rfl]
          unfold handleOTPVerify
          by_cases hc : pkg.otpWarehouse = some entered
          · rw [if_pos hc]
            rw [hpid]
            exact statusForwardO_of_char_preserve s _ pkgId i (otpUpd .warehouse)
              (pkgAt_onVerifyOTP riders s pkgId i .warehouse pkg hfind)
              (fun q => rfl)
          · rw [if_neg hc]
            exact statusForwardO_refl _
      | delivery =>
        cases hg : needsDeliveryOTP pkg r with
        | false => rw [if_neg Bool.false_ne_true]; exact statusForwardO_refl _
        | true =>
          rw [if_pos rfl]
          unfold handleOTPVerify
          by_cases hc : pkg.otpDelivery = some entered
          · rw [if_pos hc]
            rw [hpid]
            exact statusForwardO_of_char_preserve s _ pkgId i (otpUpd .delivery)
              (pkgAt_onVerifyOTP riders s pkgId i .delivery pkg hfind)
              (fun q => rfl)
          · rw [if_neg hc]
            exact statusForwardO_refl _
    | adminDispatch rid =>
      dsimp only
      cases hg : (pkg.status == Status.at_warehouse) with
      | false => rw [if_neg Bool.false_ne_true]; exact statusForwardO_refl _
      | true =>
        rw [if_pos rfl]
        refine statusForwardO_of_char s _ pkgId i pkg (dispatchUpd rid)
          .out_for_delivery hfind (pkgAt_onDispatch riders s pkgId rid i)
          (fun q => rfl) ?_
        rw [eq_of_beq hg]
        exact Or.inl (by decide)
    | markDelivered r =>
      dsimp only
      cases hg : markDeliveredShown pkg r with
      | false => rw [if_neg Bool.false_ne_true]; exact statusForwardO_refl _
      | true =>
        rw [if_pos rfl]
        refine statusForwardO_of_char s _ pkgId i pkg markDeliveredUpd
          .delivered hfind (pkgAt_onMarkDelivered riders s pkgId r.id i)
          (fun q => rfl) ?_
        rw [markDeliveredShown_status hg]
        exact Or.inl (by decide)

/-- Forward-only status movement along any sequence of UI-gated actions. -/
lemma statusForwardO_runUI (riders : List Rider) :
    ∀ (acts : List (String × UIAction)) (s : AppState) (i : String),
      statusForwardO (statusAt s i) (statusAt (runUI riders s acts) i)
  | [], _, _ => statusForwardO_refl _
  | (pkgId, a) :: rest, s, i =>
    statusForwardO_trans (statusForwardO_applyUI riders s pkgId a i)
      (statusForwardO_runUI riders rest (applyUI riders s pkgId a) i)

/-! ### The generated verification codes -/

lemma generateOTP_bounds (r : ℚ) (h0 : 0 ≤ r) (h1 : r < 1) :
    1000 ≤ (⌊(1000 : ℚ) + r * 9000⌋ : ℤ) ∧ (⌊(1000 : ℚ) + r * 9000⌋ : ℤ) ≤ 9999 := by
  constructor
  · apply Int.le_floor.mpr
    push_cast
    nlinarith
  · have hlt : (1000 : ℚ) + r * 9000 < ((10000 : ℤ) : ℚ) := by
      push_cast
      nlinarith
    have := Int.floor_lt.mpr hlt
    omega

lemma toDigitsCore_step (f n : ℕ) (hf : f ≠ 0) (l : List Char) :
    Nat.toDigitsCore 10 f n l =
      if n / 10 = 0 then Nat.digitChar (n % 10) :: l
      else Nat.toDigitsCore 10 (f - 1) (n / 10) (Nat.digitChar (n % 10) :: l) := by
  obtain ⟨g, rfl⟩ : ∃ g, f = g + 1 := ⟨f - 1, by omega⟩
  simp [Nat.toDigitsCore]

/-- The decimal representation of a number in `[1000, 9999]` is its four
digit characters. -/
lemma repr_four_digits (n : ℕ) (h1 : 1000 ≤ n) (h2 : n ≤ 9999) :
    Nat.repr n = [Nat.digitChar (n / 1000 % 10), Nat.digitChar (n / 100 % 10),
      Nat.digitChar (n / 10 % 10), Nat.digitChar (n % 10)].asString := by
  show (Nat.toDigitsCore 10 (n + 1) n []).asString = _
  rw [toDigitsCore_step _ _ (by omega) _, if_neg (by omega),
    toDigitsCore_step _ _ (by omega) _, if_neg (by omega),
    toDigitsCore_step _ _ (by omega) _, if_neg (by omega),
    toDigitsCore_step _ _ (by omega) _, if_pos (by omega)]
  have c1 : n / 10 / 10 / 10 % 10 = n / 1000 % 10 := by omega
  have c2 : n / 10 / 10 % 10 = n / 100 % 10 := by omega
  rw [c1, c2]

lemma digitChar_isDigit (m : ℕ) (h : m < 10) :
    (Nat.digitChar m).isDigit = true := by
  interval_cases m <;> decide

/-- What claim C6 calls a four-digit code: a non-empty string of exactly
four decimal digits, the decimal representation of a number between 1000
and 9999. -/
def FourDigitCode (str : String) : Prop :=
  str ≠ "" ∧ str.length = 4 ∧ (∀ c ∈ str.data, c.isDigit = true) ∧
    ∃ n : ℕ, str = Nat.repr n ∧ 1000 ≤ n ∧ n ≤ 9999

lemma generateOTP_fourDigit (r : ℚ) (h0 : 0 ≤ r) (h1 : r < 1) :
    FourDigitCode (generateOTP r) := by
  obtain ⟨hlo, hhi⟩ := generateOTP_bounds r h0 h1
  unfold generateOTP FourDigitCode
  set n := (⌊(1000 : ℚ) + r * 9000⌋).toNat with hn
  have hlo' : 1000 ≤ n := by omega
  have hhi' : n ≤ 9999 := by omega
  have hrepr := repr_four_digits n hlo' hhi'
  have hlen : (Nat.repr n).length = 4 := by rw [hrepr]; rfl
  refine ⟨?_, hlen, ?_, n, rfl, hlo', hhi'⟩
  · intro h
    rw [h] at hlen
    simp at hlen
  · intro c hc
    rw [hrepr] at hc
    have hc2 : c ∈ [Nat.digitChar (n / 1000 % 10), Nat.digitChar (n / 100 % 10),
        Nat.digitChar (n / 10 % 10), Nat.digitChar (n % 10)] := hc
    simp only [List.mem_cons, List.not_mem_nil, or_false] at hc2
    rcases hc2 with rfl | rfl | rfl | rfl <;> exact digitChar_isDigit _ (by omega)

/-! ### Concrete fixtures (taken from the `initialPackages` mock data) -/

/-- The high-value package `pkg-002` of the mock data, after dispatch to
`rider-03`: `out_for_delivery`, delivery OTP not yet verified. -/
def pkgHV : Package :=
  { id := "pkg-002", trackingCode := "MHB-BETA22", customerId := "cust-02",
    customerName := "Njeri Kamau", riderCollectionId := some "rider-02",
    riderDeliveryId := some "rider-03",
    pickupAddress := "Ngong Hills Estate",
    deliveryAddress := "Eastgate Mall, Embakasi",
    deliveryZone := "Embakasi", description := "Electronics package",
    size := "small", declaredValue := 15000,
    base := 200, protectionFee := 225, total := 425,
    isHighValue := true, status := .out_for_delivery,
    otpWarehouse := some "5512", otpDelivery := some "2267",
    otpWarehouseVerified := true, otpDeliveryVerified := false }

def stateHV : AppState := { packages := [pkgHV], logs := [] }

/-- The delivery rider bound to `pkgHV`. -/
def riderZawadi : Rider :=
  { id := "rider-03", name := "Zawadi Atieno", zone := "Embakasi" }

/-- The package `pkg-001` of the mock data: collection rider `rider-01`
already bound, status `picked_up`. -/
def pkgBound : Package :=
  { id := "pkg-001", trackingCode := "MHB-ALPHA1", customerId := "cust-01",
    customerName := "Amara Osei", riderCollectionId := some "rider-01",
    riderDeliveryId := none,
    pickupAddress := "Sarit Centre, Westlands",
    deliveryAddress := "Garden City Mall, Kasarani",
    deliveryZone := "Kasarani", description := "Laptop bag",
    size := "medium", declaredValue := 8500,
    base := 200, protectionFee := 128, total := 328,
    isHighValue := false, status := .picked_up,
    otpWarehouse := some "7423", otpDelivery := some "3891",
    otpWarehouseVerified := true, otpDeliveryVerified := false }

def stateBound : AppState := { packages := [pkgBound], logs := [] }

/-- The package `pkg-003` of the mock data, after delivery. -/
def pkgDone : Package :=
  { id := "pkg-003", trackingCode := "MHB-GAMMA3", customerId := "cust-03",
    customerName := "David Otieno", riderCollectionId := some "rider-01",
    riderDeliveryId := some "rider-03",
    pickupAddress := "Muthaiga Road",
    deliveryAddress := "Two Rivers Mall, Ruiru",
    deliveryZone := "Ruiru", description := "Fashion items",
    size := "large", declaredValue := 3200,
    base := 200, protectionFee := 0, total := 200,
    isHighValue := false, status := .delivered,
    otpWarehouse := none, otpDelivery := none,
    otpWarehouseVerified := false, otpDeliveryVerified := false }

def stateDone : AppState := { packages := [pkgDone], logs := [] }

/-- A booking form for a high-value item. -/
def formHV : CreateForm :=
  { pickupAddress := "Sarit Centre, Westlands",
    deliveryAddress := "Eastgate Mall, Embakasi",
    deliveryZone := "Embakasi", description := "Camera kit",
    size := "small", declaredValue := 15000 }

def emptyState : AppState := { packages := [], logs := [] }

/-! ### Claims -/

/-- C5: for every non-negative declared value `v`, `calcFees` returns
`base = 200`, `protectionFee = round (v * 0.015)` when `v > 5000` and `0`
when `v ≤ 5000`, `total = base + protectionFee`, and
`isHighValue = (v > 10000)`; in particular `calcFees 15000` gives
protection 225, total 425, high-value, and `calcFees 3000` gives
protection 0, total 200, not high-value. -/
theorem c5_calcFees_spec :
    (∀ v : ℚ, 0 ≤ v →
      (calcFees v).base = 200 ∧
      (calcFees v).protectionFee =
        (if v > 5000 then round (v * (0.015 : ℚ)) else 0) ∧
      (calcFees v).total = (calcFees v).base + (calcFees v).protectionFee ∧
      ((calcFees v).isHighValue = true ↔ v > 10000)) ∧
    calcFees 15000 =
      { base := 200, protectionFee := 225, total := 425, isHighValue := true } ∧
    calcFees 3000 =
      { base := 200, protectionFee := 0, total := 200, isHighValue := false } := by
  refine ⟨fun v hv => ⟨rfl, rfl, rfl, ?_⟩, ?_, ?_⟩
  · simp [calcFees]
  · simp only [calcFees, Fees.mk.injEq]
    norm_num [round_eq]
  · simp only [calcFees, Fees.mk.injEq]
    norm_num

/-- Witness for C5 at `v = 15000`. -/
theorem c5_witness : (0 : ℚ) ≤ 15000 ∧ (calcFees 15000).base = 200 :=
  ⟨by norm_num, (c5_calcFees_spec.1 15000 (by norm_num)).1⟩

/-- C9: a single `onDispatch` call binds the delivery rider, sets the
status to `out_for_delivery`, changes no other package field, and appends
exactly two ledger entries: the admin-side `DISPATCHED_TO_RIDER` entry
followed by the rider-side `OUT_FOR_DELIVERY` entry. -/
theorem c9_onDispatch_spec (riders : List Rider) (s : AppState)
    (pkgId riderId i : String) :
    pkgAt (onDispatch riders s pkgId riderId) i =
      (pkgAt s i).map (fun p => if p.id == pkgId then
        { p with riderDeliveryId := some riderId, status := .out_for_delivery }
        else p) ∧
    (onDispatch riders s pkgId riderId).logs = s.logs ++
      [{ packageId := pkgId, actorId := some "admin-01", actorRole := "admin",
         actorName := some "Admin Hub", event := "DISPATCHED_TO_RIDER",
         location := some "Baruk Central, CBD",
         notes := some ("Assigned to " ++
           (((riders.find? (fun r => r.id == riderId)).map (·.name)).getD "undefined")) },
       { packageId := pkgId, actorId := some riderId, actorRole := "rider",
         actorName := (riders.find? (fun r => r.id == riderId)).map (·.name),
         event := "OUT_FOR_DELIVERY",
         location := some "Baruk Central, CBD", notes := none }] :=
  ⟨pkgAt_onDispatch riders s pkgId riderId i, logs_onDispatch riders s pkgId riderId⟩

/-- C2 (amended): `onAcceptCollection` performs no already-bound check and
cannot fail — it unconditionally rebinds `riderCollectionId` to the caller
(silently overwriting any existing binding), sets the status to
`picked_up`, and appends a `COLLECTED_FROM_CUSTOMER` entry. -/
theorem c2_acceptCollection_overwrites (riders : List Rider) (s : AppState)
    (pkgId riderId i : String) :
    pkgAt (onAcceptCollection riders s pkgId riderId) i =
      (pkgAt s i).map (fun p => if p.id == pkgId then
        { p with riderCollectionId := some riderId, status := .picked_up }
        else p) ∧
    (onAcceptCollection riders s pkgId riderId).logs = s.logs ++
      [{ packageId := pkgId, actorId := some riderId, actorRole := "rider",
         actorName := (riders.find? (fun r => r.id == riderId)).map (·.name),
         event := "COLLECTED_FROM_CUSTOMER",
         location := (pkgAt s pkgId).map (·.pickupAddress),
         notes := some "Package collected" }] :=
  ⟨pkgAt_onAcceptCollection riders s pkgId riderId i,
   logs_onAcceptCollection riders s pkgId riderId⟩

/-- Counterexample to C2 as stated: on a package whose collection rider is
already bound (`rider-01`), a further `onAcceptCollection` by the distinct
rider `rider-02` does not fail — it silently overwrites the binding. -/
theorem c2_counterexample :
    (pkgAt stateBound "pkg-001").map (·.riderCollectionId) =
      some (some "rider-01") ∧
    "rider-02" ≠ "rider-01" ∧
    (pkgAt (onAcceptCollection [] stateBound "pkg-001" "rider-02")
        "pkg-001").map (·.riderCollectionId) = some (some "rider-02") := by
  refine ⟨by decide, by decide, by decide⟩

/-- C4: a `handleOTPVerify` attempt whose submitted code does not equal
the stored code of the requested kind only records a UI error flag: the
engine is not invoked, no verified flag is set, and packages and ledger
are both completely unchanged. -/
theorem c4_verify_mismatch_unchanged (riders : List Rider) (s : AppState)
    (pkg : Package) (k : OTPKind) (entered : String)
    (h : (match k with
        | OTPKind.warehouse => pkg.otpWarehouse
        | OTPKind.delivery => pkg.otpDelivery) ≠ some entered) :
    handleOTPVerify riders s pkg k entered = (s, true) ∧
    (handleOTPVerify riders s pkg k entered).1.packages = s.packages ∧
    (handleOTPVerify riders s pkg k entered).1.logs = s.logs := by
  have hmain : handleOTPVerify riders s pkg k entered = (s, true) := by
    unfold handleOTPVerify
    rw [if_neg h]
  exact ⟨hmain, by rw [hmain], by rw [hmain]⟩

/-- Witness for C4: submitting "0000" against stored delivery code
"2267". -/
theorem c4_witness :
    pkgHV.otpDelivery ≠ some "0000" ∧
    handleOTPVerify [] stateHV pkgHV .delivery "0000" = (stateHV, true) :=
  ⟨by decide,
   (c4_verify_mismatch_unchanged [] stateHV pkgHV .delivery "0000" (by decide)).1⟩

/-- C10: the state-engine `onVerifyOTP` takes no submitted code: with no
precondition whatsoever on any code, it sets the corresponding verified
flag of the targeted package to `true` and appends the corresponding
`OTP_WAREHOUSE_VERIFIED` / `OTP_DELIVERY_VERIFIED` ledger entry; the
exact-string match happens only in the rider UI's `handleOTPVerify`,
which calls `onVerifyOTP` exactly on a match. -/
theorem c10_onVerifyOTP_unconditional (riders : List Rider) (s : AppState)
    (pkgId : String) (pkg : Package) (h : pkgAt s pkgId = some pkg) :
    (pkgAt (onVerifyOTP riders s pkgId .warehouse) pkgId).map
      (·.otpWarehouseVerified) = some true ∧
    (pkgAt (onVerifyOTP riders s pkgId .delivery) pkgId).map
      (·.otpDeliveryVerified) = some true ∧
    (∃ e : LogEntry, (onVerifyOTP riders s pkgId .warehouse).logs = s.logs ++ [e] ∧
      e.event = "OTP_WAREHOUSE_VERIFIED" ∧ e.packageId = pkgId) ∧
    (∃ e : LogEntry, (onVerifyOTP riders s pkgId .delivery).logs = s.logs ++ [e] ∧
      e.event = "OTP_DELIVERY_VERIFIED" ∧ e.packageId = pkgId) ∧
    (∀ (entered : String) (k : OTPKind),
      handleOTPVerify riders s pkg k entered =
        if (match k with
            | OTPKind.warehouse => pkg.otpWarehouse
            | OTPKind.delivery => pkg.otpDelivery) = some entered
        then (onVerifyOTP riders s pkg.id k, false) else (s, true)) := by
  have hid : pkg.id = pkgId := pkgAt_id s pkgId pkg h
  refine ⟨?_, ?_, ?_, ?_, fun entered k => rfl⟩
  · rw [pkgAt_onVerifyOTP riders s pkgId pkgId .warehouse pkg h, h]
    simp [hid, otpUpd]
  · rw [pkgAt_onVerifyOTP riders s pkgId pkgId .delivery pkg h, h]
    simp [hid, otpUpd]
  · exact ⟨_, logs_onVerifyOTP_warehouse riders s pkgId pkg h, rfl, rfl⟩
  · exact ⟨_, logs_onVerifyOTP_delivery riders s pkgId pkg h, rfl, rfl⟩

/-- Witness for C10 on the concrete high-value package. -/
theorem c10_witness :
    pkgAt stateHV "pkg-002" = some pkgHV ∧
    (pkgAt (onVerifyOTP [] stateHV "pkg-002" .warehouse) "pkg-002").map
      (·.otpWarehouseVerified) = some true :=
  ⟨by decide,
   (c10_onVerifyOTP_unconditional [] stateHV "pkg-002" pkgHV (by decide)).1⟩

/-- Monotonicity of the two verified flags between two `pkgAt` results. -/
def verifiedMono : Option Package → Option Package → Prop
  | some p, some q =>
      (p.otpWarehouseVerified ≤ q.otpWarehouseVerified) ∧
      (p.otpDeliveryVerified ≤ q.otpDeliveryVerified)
  | none, none => True
  | _, _ => False

lemma verifiedMono_refl : ∀ o : Option Package, verifiedMono o o
  | none => trivial
  | some _ => ⟨le_refl _, le_refl _⟩

lemma verifiedMono_trans {x y z : Option Package} (h1 : verifiedMono x y)
    (h2 : verifiedMono y z) : verifiedMono x z := by
  cases x <;> cases y <;> cases z <;>
    simp only [verifiedMono] at h1 h2 ⊢ <;>
    first
      | trivial
      | exact ⟨le_trans h1.1 h2.1, le_trans h1.2 h2.2⟩

lemma verifiedMono_of_char (s s' : AppState) (pkgId i : String)
    (upd : Package → Package)
    (hchar : pkgAt s' i =
      (pkgAt s i).map (fun p => if p.id == pkgId then upd p else p))
    (hmono : ∀ q : Package,
      (q.otpWarehouseVerified ≤ (upd q).otpWarehouseVerified) ∧
      (q.otpDeliveryVerified ≤ (upd q).otpDeliveryVerified)) :
    verifiedMono (pkgAt s i) (pkgAt s' i) := by
  rw [hchar]
  cases hip : pkgAt s i with
  | none => trivial
  | some p =>
    cases hpq : (p.id == pkgId) with
    | false =>
      simp only [Option.map_some', hpq, Bool.false_eq_true, if_false]
      exact ⟨le_refl _, le_refl _⟩
    | true =>
      simp only [Option.map_some', hpq, if_true]
      exact hmono p

/-- C8: each verified flag is monotone — every single engine operation
preserves a flag that is `true` and no operation ever resets one, both
for one step and along any operation sequence (hence a flag flips
`false → true` at most once and never reverts). -/
theorem c8_verified_monotone (riders : List Rider) :
    (∀ (s : AppState) (pkgId : String) (op : EngineOp) (i : String),
      verifiedMono (pkgAt s i) (pkgAt (applyEngine riders s pkgId op) i)) ∧
    (∀ (ops : List (String × EngineOp)) (s : AppState) (i : String),
      verifiedMono (pkgAt s i) (pkgAt (runEngine riders s ops) i)) := by
  have step : ∀ (s : AppState) (pkgId : String) (op : EngineOp) (i : String),
      verifiedMono (pkgAt s i) (pkgAt (applyEngine riders s pkgId op) i) := by
    intro s pkgId op i
    cases op with
    | acceptCollection rid =>
      exact verifiedMono_of_char s _ pkgId i (acceptCollectionUpd rid)
        (pkgAt_onAcceptCollection riders s pkgId rid i)
        (fun q => ⟨le_refl _, le_refl _⟩)
    | markAtWarehouse rid =>
      exact verifiedMono_of_char s _ pkgId i markAtWarehouseUpd
        (pkgAt_onMarkAtWarehouse riders s pkgId rid i)
        (fun q => ⟨le_refl _, le_refl _⟩)
    | dispatch rid =>
      exact verifiedMono_of_char s _ pkgId i (dispatchUpd rid)
        (pkgAt_onDispatch riders s pkgId rid i)
        (fun q => ⟨le_refl _, le_refl _⟩)
    | acceptDelivery rid =>
      exact verifiedMono_of_char s _ pkgId i (acceptDeliveryUpd rid)
        (pkgAt_onAcceptDelivery riders s pkgId rid i)
        (fun q => ⟨le_refl _, le_refl _⟩)
    | verifyOTP t =>
      cases hfind : pkgAt s pkgId with
      | none =>
        dsimp only [applyEngine]
        rw [onVerifyOTP_none riders s pkgId t hfind]
        exact verifiedMono_refl _
      | some pkg =>
        refine verifiedMono_of_char s _ pkgId i (otpUpd t)
          (pkgAt_onVerifyOTP riders s pkgId i t pkg hfind) (fun q => ?_)
        cases t with
        | warehouse => exact ⟨Bool.le_true _, le_refl _⟩
        | delivery => exact ⟨le_refl _, Bool.le_true _⟩
    | markDelivered rid =>
      exact verifiedMono_of_char s _ pkgId i markDeliveredUpd
        (pkgAt_onMarkDelivered riders s pkgId rid i)
        (fun q => ⟨le_refl _, le_refl _⟩)
  refine ⟨step, ?_⟩
  intro ops
  induction ops with
  | nil => exact fun s i => verifiedMono_refl _
  | cons hd tl ih =>
    intro s i
    obtain ⟨pkgId, op⟩ := hd
    exact verifiedMono_trans (step s pkgId op i)
      (ih (applyEngine riders s pkgId op) i)

/-- The three fee fields of a package. -/
def feesOf (p : Package) : ℤ × ℤ × ℤ := (p.base, p.protectionFee, p.total)

lemma map_feesOf_of_char (s s' : AppState) (pkgId i : String)
    (upd : Package → Package)
    (hchar : pkgAt s' i =
      (pkgAt s i).map (fun p => if p.id == pkgId then upd p else p))
    (hfees : ∀ q : Package, (upd q).base = q.base ∧
      (upd q).protectionFee = q.protectionFee ∧ (upd q).total = q.total) :
    (pkgAt s' i).map feesOf = (pkgAt s i).map feesOf := by
  rw [hchar]
  cases pkgAt s i with
  | none => rfl
  | some p =>
    cases hpq : (p.id == pkgId) with
    | false =>
      have hne : ¬ p.id = pkgId := by
        intro hh
        rw [hh] at hpq
        simp at hpq
      simp [hne]
    | true =>
      have heq : p.id = pkgId := eq_of_beq hpq
      obtain ⟨hb, hp, ht⟩ := hfees p
      simp [heq, feesOf, hb, hp, ht]

/-- C7: every package is created with `total = base + protectionFee`
(both come from `calcFees`), and no engine operation ever modifies any of
the three fee fields, so the invariant holds for the package's lifetime. -/
theorem c7_fee_invariant (riders : List Rider) :
    (∀ (s : AppState) (userId userName : String) (form : CreateForm)
        (newId trackingCode : String) (r1 r2 : ℚ),
      (onCreatePackage s userId userName form newId trackingCode r1 r2).2.total =
        (onCreatePackage s userId userName form newId trackingCode r1 r2).2.base +
        (onCreatePackage s userId userName form newId trackingCode r1 r2).2.protectionFee) ∧
    (∀ (s : AppState) (pkgId : String) (op : EngineOp) (i : String),
      (pkgAt (applyEngine riders s pkgId op) i).map feesOf =
        (pkgAt s i).map feesOf) := by
  constructor
  · intro s userId userName form newId trackingCode r1 r2
    rfl
  · intro s pkgId op i
    cases op with
    | acceptCollection rid =>
      exact map_feesOf_of_char s _ pkgId i (acceptCollectionUpd rid)
        (pkgAt_onAcceptCollection riders s pkgId rid i)
        (fun q => ⟨rfl, rfl, rfl⟩)
    | markAtWarehouse rid =>
      exact map_feesOf_of_char s _ pkgId i markAtWarehouseUpd
        (pkgAt_onMarkAtWarehouse riders s pkgId rid i)
        (fun q => ⟨rfl, rfl, rfl⟩)
    | dispatch rid =>
      exact map_feesOf_of_char s _ pkgId i (dispatchUpd rid)
        (pkgAt_onDispatch riders s pkgId rid i)
        (fun q => ⟨rfl, rfl, rfl⟩)
    | acceptDelivery rid =>
      exact map_feesOf_of_char s _ pkgId i (acceptDeliveryUpd rid)
        (pkgAt_onAcceptDelivery riders s pkgId rid i)
        (fun q => ⟨rfl, rfl, rfl⟩)
    | verifyOTP t =>
      cases hfind : pkgAt s pkgId with
      | none =>
        dsimp only [applyEngine]
        rw [onVerifyOTP_none riders s pkgId t hfind]
      | some pkg =>
        exact map_feesOf_of_char s _ pkgId i (otpUpd t)
          (pkgAt_onVerifyOTP riders s pkgId i t pkg hfind)
          (fun q => by cases t <;> exact ⟨rfl, rfl, rfl⟩)
    | markDelivered rid =>
      exact map_feesOf_of_char s _ pkgId i markDeliveredUpd
        (pkgAt_onMarkDelivered riders s pkgId rid i)
        (fun q => ⟨rfl, rfl, rfl⟩)

/-- C6: a package created with `declaredValue > 10000` is high-value and
carries two verification codes that are non-empty strings of exactly four
decimal digits (numeric value between 1000 and 9999); with
`declaredValue ≤ 10000` both codes are `none`. -/
theorem c6_create_codes (s : AppState) (userId userName : String)
    (form : CreateForm) (newId trackingCode : String) (r1 r2 : ℚ)
    (h1 : 0 ≤ r1) (h2 : r1 < 1) (h3 : 0 ≤ r2) (h4 : r2 < 1) :
    (form.declaredValue > 10000 →
      (onCreatePackage s userId userName form newId trackingCode r1 r2).2.isHighValue = true ∧
      ∃ c1 c2 : String,
        (onCreatePackage s userId userName form newId trackingCode r1 r2).2.otpWarehouse = some c1 ∧
        (onCreatePackage s userId userName form newId trackingCode r1 r2).2.otpDelivery = some c2 ∧
        FourDigitCode c1 ∧ FourDigitCode c2) ∧
    (form.declaredValue ≤ 10000 →
      (onCreatePackage s userId userName form newId trackingCode r1 r2).2.otpWarehouse = none ∧
      (onCreatePackage s userId userName form newId trackingCode r1 r2).2.otpDelivery = none) := by
  constructor
  · intro hgt
    have hv : (calcFees form.declaredValue).isHighValue = true := decide_eq_true hgt
    refine ⟨hv, generateOTP r1, generateOTP r2, ?_, ?_,
      generateOTP_fourDigit r1 h1 h2, generateOTP_fourDigit r2 h3 h4⟩
    · show (if (calcFees form.declaredValue).isHighValue = true
          then some (generateOTP r1) else none) = some (generateOTP r1)
      rw [hv]
      rfl
    · show (if (calcFees form.declaredValue).isHighValue = true
          then some (generateOTP r2) else none) = some (generateOTP r2)
      rw [hv]
      rfl
  · intro hle
    have hv : (calcFees form.declaredValue).isHighValue = false :=
      decide_eq_false (not_lt.mpr hle)
    constructor
    · show (if (calcFees form.declaredValue).isHighValue = true
          then some (generateOTP r1) else none) = none
      rw [hv]
      rfl
    · show (if (calcFees form.declaredValue).isHighValue = true
          then some (generateOTP r2) else none) = none
      rw [hv]
      rfl

/-- Witness for C6: a 15000-value booking with draws `0` and `1/2`. -/
theorem c6_witness :
    (0 : ℚ) ≤ 0 ∧ (0 : ℚ) < 1 ∧ (0 : ℚ) ≤ 1/2 ∧ (1/2 : ℚ) < 1 ∧
    formHV.declaredValue > 10000 ∧
    (onCreatePackage emptyState "cust-09" "Test Customer" formHV
      "pkg-x" "MHB-XYZ01" 0 (1/2)).2.isHighValue = true :=
  ⟨by norm_num, by norm_num, by norm_num, by norm_num, by decide,
   ((c6_create_codes emptyState "cust-09" "Test Customer" formHV
        "pkg-x" "MHB-XYZ01" 0 (1/2)
        (by norm_num) (by norm_num) (by norm_num) (by norm_num)).1 (by decide)).1⟩

/-- C1 (amended): the engine `onMarkDelivered` itself checks nothing, and
there is no `TransitionRejected` outcome anywhere; the gate is the rider
UI's render condition.  For a high-value package whose delivery OTP is
unverified, the UI-level Mark-as-Delivered action is simply not offered
and the state (status included) is completely unchanged; after the rider
verifies the correct delivery code, the identical action fires
`onMarkDelivered` and the status becomes `delivered`. -/
theorem c1_markDelivered_gate (riders : List Rider) (s : AppState)
    (pkgId : String) (rider : Rider) (pkg : Package) (code : String)
    (hfind : pkgAt s pkgId = some pkg)
    (hhv : pkg.isHighValue = true)
    (hnv : pkg.otpDeliveryVerified = false)
    (hst : pkg.status = .out_for_delivery)
    (hrd : pkg.riderDeliveryId = some rider.id)
    (hcode : pkg.otpDelivery = some code) :
    applyUI riders s pkgId (.markDelivered rider) = s ∧
    statusAt (applyUI riders
        (applyUI riders s pkgId (.verifyOTP rider .delivery code))
        pkgId (.markDelivered rider)) pkgId = some .delivered := by
  have hid : pkg.id = pkgId := pkgAt_id s pkgId pkg hfind
  have hshown : markDeliveredShown pkg rider = false := by
    unfold markDeliveredShown
    rw [hhv, hnv]
    simp
  constructor
  · unfold applyUI
    rw [hfind]
    dsimp only
    rw [hshown, if_neg Bool.false_ne_true]
  · have hneeds : needsDeliveryOTP pkg rider = true := by
      unfold needsDeliveryOTP
      rw [hhv, hrd, hst, hnv]
      simp
    have hs1 : applyUI riders s pkgId (.verifyOTP rider .delivery code) =
        onVerifyOTP riders s pkgId .delivery := by
      unfold applyUI
      rw [hfind]
      dsimp only
      rw [hneeds, if_pos rfl]
      unfold handleOTPVerify
      rw [if_pos hcode]
      dsimp only
      rw [hid]
    have hpkg1 : pkgAt (onVerifyOTP riders s pkgId .delivery) pkgId =
        some (otpUpd .delivery pkg) := by
      rw [pkgAt_onVerifyOTP riders s pkgId pkgId .delivery pkg hfind, hfind]
      simp [hid]
    have hshown2 : markDeliveredShown (otpUpd .delivery pkg) rider = true := by
      unfold markDeliveredShown otpUpd
      simp [hst, hrd]
    rw [hs1]
    unfold applyUI
    rw [hpkg1]
    dsimp only
    rw [hshown2, if_pos rfl]
    unfold statusAt
    rw [pkgAt_onMarkDelivered riders _ pkgId rider.id pkgId, hpkg1]
    simp [otpUpd, markDeliveredUpd, hid]

/-- Witness for C1 on the concrete dispatched high-value package. -/
theorem c1_witness :
    pkgAt stateHV "pkg-002" = some pkgHV ∧
    pkgHV.isHighValue = true ∧
    pkgHV.otpDeliveryVerified = false ∧
    pkgHV.status = .out_for_delivery ∧
    pkgHV.riderDeliveryId = some riderZawadi.id ∧
    pkgHV.otpDelivery = some "2267" ∧
    applyUI [] stateHV "pkg-002" (.markDelivered riderZawadi) = stateHV :=
  ⟨by decide, rfl, rfl, rfl, by decide, rfl,
   (c1_markDelivered_gate [] stateHV "pkg-002" riderZawadi pkgHV "2267"
      (by decide) rfl rfl rfl (by decide) rfl).1⟩

/-- Counterexample to C1 as stated: on a concrete high-value package with
`otpDeliveryVerified = false`, the `MarkDelivered` engine call does not
fail — it sets the status to `delivered`. -/
theorem c1_counterexample :
    pkgHV.isHighValue = true ∧ pkgHV.otpDeliveryVerified = false ∧
    statusAt stateHV "pkg-002" = some .out_for_delivery ∧
    statusAt (onMarkDelivered [] stateHV "pkg-002" "rider-03") "pkg-002" =
      some .delivered := by
  refine ⟨rfl, rfl, by decide, by decide⟩

/-- C3 (amended): the raw engine operations set fixed target statuses with
no source-state check, so they can move a status backward; but along any
sequence of UI-gated actions (the render conditions of the rider and admin
interfaces), no package's status ever moves backward in the order
`searching_rider < picked_up < at_warehouse < out_for_delivery <
delivered`, except possibly to the terminal `cancelled` state (which no
operation ever produces). -/
theorem c3_no_backward_ui (riders : List Rider)
    (acts : List (String × UIAction)) (s : AppState) (i : String) :
    statusForwardO (statusAt s i) (statusAt (runUI riders s acts) i) :=
  statusForwardO_runUI riders acts s i

/-- Counterexample to C3 as stated: `onMarkAtWarehouse` applied to an
already-delivered package moves its status backward from `delivered` to
`at_warehouse`. -/
theorem c3_counterexample :
    statusAt stateDone "pkg-003" = some .delivered ∧
    statusAt (onMarkAtWarehouse [] stateDone "pkg-003" "rider-01")
      "pkg-003" = some .at_warehouse ∧
    ¬ statusForward .delivered .at_warehouse := by
  refine ⟨by decide, by decide, ?_⟩
  show ¬ (statusRank .delivered ≤ statusRank .at_warehouse ∨
    Status.at_warehouse = .cancelled)
  decide

end Baruk
